import Mathlib

set_option linter.unusedVariables false

/-!
Shallow embedding of the invoice-customs bot (src/bot.py).

The bot keeps one mutable session per user id; a session is the dict
`{"images": [...], "phase": "collecting"|"review", "shipments": [...]}`.
Handlers are modelled as pure state-passing functions from the session
(or the whole session store) and the event payload to the new state plus
the outbound reply.  The external extraction call (`process_invoices`'s
network part) is passed in as an explicit outcome parameter; its pure
text post-processing (fence stripping and list normalization) is
embedded directly.  Python machine behaviour that matters here is kept:
`int()` parsing, `str.split`/`strip`, negative list indexing, and the
exception flow inside `cmd_done`'s try block.
-/

/-- The `phase` field of a session: `"collecting"` or `"review"`. -/
inductive Phase
  | collecting
  | review
  deriving DecidableEq, Repr

/-- The fields of a shipment dict that the modelled operations read or
write.  Every field the extraction engine fills is optional (a dict key
that may be absent); `orderNumber` and `paymentApproved` are written by
the bot itself at commit time.  Keys only used by the presentation card
(tracking number, recipient, ...) are omitted: no modelled operation
reads them. -/
structure ShipmentData where
  orderNumber : Option String
  paymentApproved : Option Bool
  shipper : Option String
  shipperCountry : Option String
  goodsDescription : Option String
  declaredValue : Option String
  dutyAmount : Option String
  entryPrepFee : Option String
  totalCharges : Option String
  deriving DecidableEq, Repr

/-- A per-user session (`sessions[user_id]` in the source). -/
structure Session where
  images : List String
  phase : Phase
  shipments : List ShipmentData
  deriving DecidableEq, Repr

/-- The fresh session dict `{"images": [], "phase": "collecting", "shipments": []}`. -/
def fresh_session : Session :=
  { images := [], phase := .collecting, shipments := [] }

/-- Python `str.strip()` on a list of characters: drop whitespace from
both ends. -/
def pyStripChars (s : List Char) : List Char :=
  ((s.dropWhile Char.isWhitespace).reverse.dropWhile Char.isWhitespace).reverse

/-- Python `s.split(",")`: split on every comma, keeping empty pieces
(`"".split(",") == [""]`). -/
def split_commas : List Char → List (List Char)
  | [] => [[]]
  | c :: rest =>
    let r := split_commas rest
    if c = ',' then [] :: r
    else (c :: r.headD []) :: r.tail

/-- Digit-string accumulator used by `parse_int?`: all characters must
be decimal digits. -/
def parse_digits_core : List Char → Nat → Option Nat
  | [], acc => some acc
  | c :: cs, acc =>
    if c.isDigit then parse_digits_core cs (acc * 10 + (c.toNat - 48)) else none

/-- Python `int(s)` on a string: optional surrounding whitespace, an
optional sign, then at least one decimal digit; `none` models the
`ValueError` that anything else raises. -/
def parse_int? (s : List Char) : Option Int :=
  match pyStripChars s with
  | [] => none
  | '-' :: [] => none
  | '-' :: c :: cs => (parse_digits_core (c :: cs) 0).map (fun n => -(n : Int))
  | '+' :: [] => none
  | '+' :: c :: cs => (parse_digits_core (c :: cs) 0).map (fun n => (n : Int))
  | cs => (parse_digits_core cs 0).map (fun n => (n : Int))

/-- Python `" ".join(parts)`. -/
def join_spaces : List String → String
  | [] => ""
  | [x] => x
  | x :: xs => x ++ " " ++ join_spaces xs

/-- `is_allowed` from the source: an empty `ALLOWED_USERS` string allows
everyone; otherwise the string is split on commas, each piece stripped,
empty pieces dropped, the rest parsed as integers, and membership of the
user id decides.  (A piece that `int()` cannot parse would raise in the
source; such configurations are outside every claim and are skipped
here.) -/
def is_allowed (raw : String) (uid : Int) : Bool :=
  if raw = "" then true
  else
    ((((split_commas raw.data).map pyStripChars).filter
        (fun x => !x.isEmpty)).filterMap parse_int?).contains uid

/-- `generate_ticket(data, approved)` from the source, with each
`data.get(key, default)` rendered as `Option.getD`.  The f-strings are
written as explicit appends in source order. -/
def generate_ticket (data : ShipmentData) (approved : Bool) : String :=
  let order := Option.getD data.orderNumber "______"
  let shipper := Option.getD data.shipper "N/A"
  let country := Option.getD data.shipperCountry ""
  let goods := Option.getD data.goodsDescription "N/A"
  let declared := Option.getD data.declaredValue "N/A"
  let duty := Option.getD data.dutyAmount "N/A"
  let fee := Option.getD data.entryPrepFee "N/A"
  let total := Option.getD data.totalCharges "N/A"
  let header :=
    "Здравствуйте!\n\nПо вашему заказу № " ++ order
      ++ " (посылка от отправителя " ++ shipper ++ ", " ++ country
      ++ ") была начислена таможенная пошлина."
  let details :=
    "\n\nДетали:\n- Описание товара: " ++ goods
      ++ "\n- Объявленная стоимость: $" ++ declared
      ++ "\n- Пошлина (Duty): $" ++ duty
      ++ "\n- Сбор за оформление (Entry Prep Fee): $" ++ fee
      ++ "\n- Итого " ++ (if approved then "оплачено" else "к оплате")
      ++ ": $" ++ total ++ " USD"
  let footer :=
    if approved then
      "\n\nСумма была списана с вашего баланса.\n\nЕсли у вас есть вопросы — напишите нам."
    else
      "\n\nСписание средств не производилось, так как оплата пошлины не была согласована."
        ++ "\nПожалуйста, подтвердите оплату или свяжитесь с нами для уточнения."
        ++ "\n\nЕсли у вас есть вопросы — напишите нам."
  header ++ details ++ footer

/-- Python `s.removeprefix(pat)` on character lists. -/
def removePreChars (pat s : List Char) : List Char :=
  if List.isPrefixOf pat s then s.drop pat.length else s

/-- Python `s.removesuffix(pat)` on character lists. -/
def removeSufChars (pat s : List Char) : List Char :=
  if List.isSuffixOf pat s then s.take (s.length - pat.length) else s

/-- The fence-stripping chain in `process_invoices`:
`text.strip().removeprefix("```json").removeprefix("```").removesuffix("```").strip()`. -/
def fence_strip (text : String) : String :=
  let t0 := pyStripChars text.data
  let t1 := removePreChars ("```json").data t0
  let t2 := removePreChars ("```").data t1
  let t3 := removeSufChars ("```").data t2
  ⟨pyStripChars t3⟩

/-- One element of the JSON value `json.loads` returns inside
`process_invoices`: either a JSON object (a shipment draft, with the
recognised keys) or some other JSON value (number, string, ...), on
which key assignment in `cmd_done`'s commit loop raises `TypeError`. -/
inductive Draft
  | obj (fields : ShipmentData)
  | nonDict
  deriving DecidableEq, Repr

/-- The shape of `json.loads`'s result as `process_invoices` inspects
it: a JSON array of values, or a single non-array value. -/
inductive ParsedJson
  | arr (items : List Draft)
  | single (item : Draft)
  deriving DecidableEq, Repr

/-- `parsed if isinstance(parsed, list) else [parsed]`. -/
def normalize_parsed : ParsedJson → List Draft
  | .arr xs => xs
  | .single d => [d]

/-- The pure tail of `process_invoices`: strip fences from the engine's
text, parse it (`jsonLoads`, passed in as the opaque `json.loads`;
`none` models `JSONDecodeError`), and normalize a non-array result to a
one-element list. -/
def parse_response (jsonLoads : String → Option ParsedJson) (raw : String) :
    Option (List Draft) :=
  match jsonLoads (fence_strip raw) with
  | none => none
  | some p => some (normalize_parsed p)

/-- The per-draft augmentation in `cmd_done`:
`s["orderNumber"] = ""; s["paymentApproved"] = True`. -/
def commit_draft (d : ShipmentData) : ShipmentData :=
  { d with orderNumber := some "", paymentApproved := some true }

/-- The `for s in shipments:` loop of `cmd_done`, run after
`session["shipments"] = []`.  Appends the augmented draft for each JSON
object; a non-object raises `TypeError`, stopping the loop with the
session's shipment list left at the prefix built so far (`false` flags
the raised exception). -/
def commit_loop : List Draft → List ShipmentData → List ShipmentData × Bool
  | [], acc => (acc, true)
  | .obj d :: rest, acc => commit_loop rest (acc ++ [commit_draft d])
  | .nonDict :: _, acc => (acc, false)

/-- Outcome of the awaited `process_invoices` call inside `cmd_done`:
`failure` models any raised exception (API error, `JSONDecodeError`),
`success` carries the list of parsed JSON values. -/
inductive ExtractOutcome
  | failure
  | success (drafts : List Draft)
  deriving DecidableEq, Repr

/-- Reply of `/done`. -/
inductive DoneReply
  | deniedSilent
  | noImages
  | processed (count : Nat) (multi : Bool)
  | extractError
  deriving DecidableEq, Repr

/-- `cmd_done`: access check, empty-images check, then the try block
around extraction and the commit loop.  An exception from extraction or
from the loop is caught by the `except` clause, which only edits the
progress message (`extractError`). -/
def cmd_done (allowed : Bool) (outcome : ExtractOutcome) (s : Session) :
    Session × DoneReply :=
  if !allowed then (s, .deniedSilent)
  else if s.images = [] then (s, .noImages)
  else
    match outcome with
    | .failure => (s, .extractError)
    | .success drafts =>
      match commit_loop drafts [] with
      | (committed, true) =>
        ({ s with shipments := committed, phase := .review },
          .processed committed.length (committed.length > 1))
      | (committed, false) =>
        ({ s with shipments := committed }, .extractError)

/-- `handle_photo`: access check (silent return when denied), reset of a
non-collecting session, append of the downloaded image, count reply. -/
def handle_photo (allowed : Bool) (s : Session) (img : String) :
    Session × Option String :=
  if !allowed then (s, none)
  else
    let s1 :=
      if s.phase ≠ .collecting then
        { s with phase := .collecting, images := [], shipments := [] }
      else s
    let s2 := { s1 with images := s1.images ++ [img] }
    (s2, some ("✅ Фото " ++ toString s2.images.length ++ " загружено.\n"
      ++ "Отправьте ещё фото или нажмите /done для распознавания."))

/-- In-place functional update of one list position (Python
`lst[j][key] = v` on a 0-based non-negative index). -/
def list_update : List α → Nat → (α → α) → List α
  | [], _, _ => []
  | x :: xs, 0, f => f x :: xs
  | x :: xs, n + 1, f => x :: list_update xs n f

/-- Resolution of a Python list index: non-negative indices address
positions directly, negative ones count from the end, and anything
further out raises `IndexError` (`none`). -/
def pyIndex (len : Nat) (i : Int) : Option Nat :=
  if 0 ≤ i then (if i < (len : Int) then some i.toNat else none)
  else (if 0 ≤ (len : Int) + i then some ((len : Int) + i).toNat else none)

/-- The action encoded in a callback payload `approve_N` / `reject_N` /
`ticket_N`. -/
inductive CbAction
  | approve
  | reject
  | ticket
  deriving DecidableEq, Repr

/-- Reply of the callback handler.  `silent` is the fall-through when
the `idx < len(shipments)` guard fails; `indexError` models the uncaught
`IndexError` of an index below `-len`; `keyError` the uncaught
`KeyError` of a ticket request on a shipment dict without a
`paymentApproved` key. -/
inductive CbReply
  | approved (n : Int)
  | rejected (n : Int)
  | ticketText (n : Int) (text : String)
  | silent
  | indexError
  | keyError
  deriving DecidableEq, Repr

/-- `handle_callback` on the resolved session.  NOTE: the source
performs no `is_allowed` check in this handler, so none is modelled.
Each branch guards only with `idx < len(session["shipments"])` before
indexing, so a negative `idx` passes the guard and Python indexing
resolves it from the end of the list. -/
def handle_callback (s : Session) (a : CbAction) (idx : Int) :
    Session × CbReply :=
  if idx < (s.shipments.length : Int) then
    match pyIndex s.shipments.length idx with
    | none => (s, .indexError)
    | some j =>
      match a with
      | .approve =>
        ({ s with shipments :=
            list_update s.shipments j (fun sh => { sh with paymentApproved := some true }) },
          .approved (idx + 1))
      | .reject =>
        ({ s with shipments :=
            list_update s.shipments j (fun sh => { sh with paymentApproved := some false }) },
          .rejected (idx + 1))
      | .ticket =>
        match s.shipments.get? j with
        | none => (s, .indexError)
        | some sh =>
          match sh.paymentApproved with
          | none => (s, .keyError)
          | some ap => (s, .ticketText (idx + 1) (generate_ticket sh ap))
  else (s, .silent)

/-- Reply of `/order`. -/
inductive OrderReply
  | deniedSilent
  | usage
  | setOk (n : Int) (text : String)
  | notFound (n : Int)
  | valueError
  deriving DecidableEq, Repr

/-- `cmd_order`: access check, argument-count check, `int(args[0]) - 1`
(with `ValueError` caught), full `0 <= idx < len` bound check, and the
order-number assignment. -/
def cmd_order (allowed : Bool) (args : List String) (s : Session) :
    Session × OrderReply :=
  if !allowed then (s, .deniedSilent)
  else if args.length < 2 then (s, .usage)
  else
    match parse_int? (args.headD "").data with
    | none => (s, .valueError)
    | some n =>
      let idx := n - 1
      let order_num := join_spaces args.tail
      if 0 ≤ idx ∧ idx < (s.shipments.length : Int) then
        ({ s with shipments :=
            list_update s.shipments idx.toNat (fun sh => { sh with orderNumber := some order_num }) },
          .setOk (idx + 1) order_num)
      else (s, .notFound (idx + 1))

/-- Reply of `/tickets`.  `keyError` models the uncaught `KeyError` when
some shipment dict lacks `paymentApproved` (never the case for
committed shipments). -/
inductive TicketsReply
  | deniedSilent
  | empty
  | rendered (ts : List String)
  | keyError
  deriving DecidableEq, Repr

/-- `cmd_tickets`: access check, empty-shipments check, then one
rendered ticket per shipment in index order. -/
def cmd_tickets (allowed : Bool) (s : Session) : Session × TicketsReply :=
  if !allowed then (s, .deniedSilent)
  else if s.shipments = [] then (s, .empty)
  else if s.shipments.all (fun sh => sh.paymentApproved.isSome) then
    (s, .rendered (s.shipments.map
      (fun sh => generate_ticket sh (sh.paymentApproved.getD true))))
  else (s, .keyError)

/-- The process-wide `sessions` dict, as an insertion-ordered
association list from user id to session. -/
abbrev Store := List (Int × Session)

/-- Dict lookup `sessions.get(user_id)`. -/
def store_lookup (st : Store) (uid : Int) : Option Session :=
  (st.find? (fun p => p.1 == uid)).map (fun p => p.2)

/-- Dict assignment `sessions[user_id] = s`. -/
def store_set (st : Store) (uid : Int) (s : Session) : Store :=
  if (st.find? (fun p => p.1 == uid)).isSome then
    st.map (fun p => if p.1 == uid then (uid, s) else p)
  else st ++ [(uid, s)]

/-- `get_session`: create the default session on first contact. -/
def get_session (st : Store) (uid : Int) : Store × Session :=
  match store_lookup st uid with
  | some s => (st, s)
  | none => (store_set st uid fresh_session, fresh_session)

/-- `clear_session`. -/
def clear_session (st : Store) (uid : Int) : Store :=
  store_set st uid fresh_session

/-- The welcome text of `/start` (with MarkdownV2 escapes as written). -/
def welcome_text : String :=
  "📦 *Invoice Processor Bot*\n\nОтправьте мне фото инвойсов \\(можно несколько\\)\\.\n"
    ++ "Когда все фото загружены — нажмите /done\n\nКоманды:\n"
    ++ "/done — распознать загруженные фото\n/clear — очистить и начать заново\n/help — справка"

/-- `cmd_start` at store level: the only handler that answers a denied
user with the fixed access-denied message before touching state. -/
def cmd_start_entry (raw : String) (uid : Int) (st : Store) : Store × String :=
  if !is_allowed raw uid then (st, "⛔ У вас нет доступа к этому боту.")
  else (clear_session st uid, welcome_text)

/-- `cmd_clear` at store level.  NOTE: the source performs no
`is_allowed` check in this handler; the session is cleared for any
caller.  The unused `raw` parameter records that the allow-list is
available but ignored. -/
def cmd_clear_entry (raw : String) (uid : Int) (st : Store) : Store × String :=
  (clear_session st uid, "🗑 Очищено. Отправляйте новые фото инвойсов.")

/-- `handle_callback` at store level.  NOTE: the source performs no
`is_allowed` check in this handler either; `get_session` even creates a
session for an unknown caller.  The unused `raw` parameter records the
ignored allow-list. -/
def handle_callback_entry (raw : String) (uid : Int) (st : Store)
    (a : CbAction) (idx : Int) : Store × CbReply :=
  let p1 := get_session st uid
  let p2 := handle_callback p1.2 a idx
  (store_set p1.1 uid p2.1, p2.2)

/-- Substring containment on strings, via an explicit decomposition of
the character data. -/
def containsStr (s pat : String) : Prop :=
  ∃ p q, s.data = p ++ pat.data ++ q

/-- All fields `generate_ticket` reads are present on the record. -/
def allFieldsPresent (d : ShipmentData) : Prop :=
  d.orderNumber.isSome ∧ d.shipper.isSome ∧ d.shipperCountry.isSome ∧
    d.goodsDescription.isSome ∧ d.declaredValue.isSome ∧ d.dutyAmount.isSome ∧
    d.entryPrepFee.isSome ∧ d.totalCharges.isSome

instance (d : ShipmentData) : Decidable (allFieldsPresent d) := by
  unfold allFieldsPresent; infer_instance

/-- A shipment record with every field present, as committed shipments
have (used by concrete witnesses). -/
def sample_full : ShipmentData :=
  { orderNumber := some "A1", paymentApproved := some true,
    shipper := some "Acme", shipperCountry := some "US",
    goodsDescription := some "widgets", declaredValue := some "10.00",
    dutyAmount := some "1.00", entryPrepFee := some "2.00",
    totalCharges := some "3.00" }

/-- A shipment record with every optional field absent. -/
def sample_empty : ShipmentData :=
  { orderNumber := none, paymentApproved := none,
    shipper := none, shipperCountry := none,
    goodsDescription := none, declaredValue := none,
    dutyAmount := none, entryPrepFee := none, totalCharges := none }

/-! Helper lemmas about the embedded operations. -/

/-- The commit loop maps every JSON-object draft through `commit_draft`
and reports no exception. -/
theorem commit_loop_obj (ds acc : List ShipmentData) :
    commit_loop (ds.map Draft.obj) acc = (acc ++ ds.map commit_draft, true) := by
  induction ds generalizing acc with
  | nil => simp [commit_loop]
  | cons d rest ih => simp [commit_loop, ih]

/-- The commit loop stops at the first non-object draft, keeping only
the prefix committed so far and reporting the raised exception. -/
theorem commit_loop_stops (pre : List ShipmentData) (post : List Draft)
    (acc : List ShipmentData) :
    commit_loop (pre.map Draft.obj ++ Draft.nonDict :: post) acc
      = (acc ++ pre.map commit_draft, false) := by
  induction pre generalizing acc with
  | nil => simp [commit_loop]
  | cons d rest ih => simp [commit_loop, ih]

/-- `list_update` preserves the length of the list. -/
theorem list_update_length (l : List α) (i : Nat) (f : α → α) :
    (list_update l i f).length = l.length := by
  induction l generalizing i with
  | nil => rfl
  | cons x xs ih => cases i <;> simp [list_update, ih]

/-- Updating the same position twice with an idempotent function is the
same as updating it once. -/
theorem list_update_idem (l : List α) (i : Nat) (f : α → α)
    (hf : ∀ a, f (f a) = f a) :
    list_update (list_update l i f) i f = list_update l i f := by
  induction l generalizing i with
  | nil => rfl
  | cons x xs ih => cases i <;> simp [list_update, hf, ih]

/-- An in-bounds non-negative approve callback sets `paymentApproved` of
the addressed shipment to `True`. -/
theorem handle_callback_approve_inbounds (s : Session) (idx : Nat)
    (h : idx < s.shipments.length) :
    handle_callback s .approve (idx : Int)
      = ({ s with shipments := list_update s.shipments idx (fun sh => { sh with paymentApproved := some true }) }, .approved ((idx : Int) + 1)) := by
  have hg : ((idx : Int) < (s.shipments.length : Int)) := by exact_mod_cast h
  simp [handle_callback, pyIndex, hg, Int.toNat_natCast]

/-- An in-bounds non-negative reject callback sets `paymentApproved` of
the addressed shipment to `False`. -/
theorem handle_callback_reject_inbounds (s : Session) (idx : Nat)
    (h : idx < s.shipments.length) :
    handle_callback s .reject (idx : Int)
      = ({ s with shipments := list_update s.shipments idx (fun sh => { sh with paymentApproved := some false }) }, .rejected ((idx : Int) + 1)) := by
  have hg : ((idx : Int) < (s.shipments.length : Int)) := by exact_mod_cast h
  simp [handle_callback, pyIndex, hg, Int.toNat_natCast]

set_option maxRecDepth 8192 in
/-- The rendered ticket of an approved shipment contains the approved
footer sentence. -/
theorem ticket_contains_paid_footer (d : ShipmentData) :
    containsStr (generate_ticket d true) "Сумма была списана с вашего баланса." := by
  refine ⟨("Здравствуйте!\n\nПо вашему заказу № " ++ Option.getD d.orderNumber "______"
      ++ " (посылка от отправителя " ++ Option.getD d.shipper "N/A" ++ ", "
      ++ Option.getD d.shipperCountry "" ++ ") была начислена таможенная пошлина."
      ++ "\n\nДетали:\n- Описание товара: " ++ Option.getD d.goodsDescription "N/A"
      ++ "\n- Объявленная стоимость: $" ++ Option.getD d.declaredValue "N/A"
      ++ "\n- Пошлина (Duty): $" ++ Option.getD d.dutyAmount "N/A"
      ++ "\n- Сбор за оформление (Entry Prep Fee): $" ++ Option.getD d.entryPrepFee "N/A"
      ++ "\n- Итого " ++ "оплачено" ++ ": $" ++ Option.getD d.totalCharges "N/A"
      ++ " USD" ++ "\n\n").data,
    ("\n\nЕсли у вас есть вопросы — напишите нам.").data, ?_⟩
  have h1 : ("\n\nСумма была списана с вашего баланса.\n\nЕсли у вас есть вопросы — напишите нам." : String).data
      = ("\n\n" : String).data ++ (("Сумма была списана с вашего баланса." : String).data
          ++ ("\n\nЕсли у вас есть вопросы — напишите нам." : String).data) := rfl
  simp [generate_ticket, String.data_append, h1, List.append_assoc]

set_option maxRecDepth 8192 in
/-- The rendered ticket of an approved shipment labels the total line
with the paid label. -/
theorem ticket_contains_paid_total_label (d : ShipmentData) :
    containsStr (generate_ticket d true) "Итого оплачено" := by
  refine ⟨("Здравствуйте!\n\nПо вашему заказу № " ++ Option.getD d.orderNumber "______"
      ++ " (посылка от отправителя " ++ Option.getD d.shipper "N/A" ++ ", "
      ++ Option.getD d.shipperCountry "" ++ ") была начислена таможенная пошлина."
      ++ "\n\nДетали:\n- Описание товара: " ++ Option.getD d.goodsDescription "N/A"
      ++ "\n- Объявленная стоимость: $" ++ Option.getD d.declaredValue "N/A"
      ++ "\n- Пошлина (Duty): $" ++ Option.getD d.dutyAmount "N/A"
      ++ "\n- Сбор за оформление (Entry Prep Fee): $" ++ Option.getD d.entryPrepFee "N/A"
      ++ "\n- ").data,
    (": $" ++ Option.getD d.totalCharges "N/A" ++ " USD"
      ++ "\n\nСумма была списана с вашего баланса.\n\nЕсли у вас есть вопросы — напишите нам.").data, ?_⟩
  have h2 : ("\n- Итого " : String).data = ("\n- " : String).data ++ ("Итого " : String).data := rfl
  have h3 : ("Итого оплачено" : String).data = ("Итого " : String).data ++ ("оплачено" : String).data := rfl
  simp [generate_ticket, String.data_append, h2, h3, List.append_assoc]

set_option maxRecDepth 8192 in
/-- The rendered ticket of a rejected shipment contains the no-charge
footer sentence. -/
theorem ticket_contains_unpaid_footer (d : ShipmentData) :
    containsStr (generate_ticket d false) "Списание средств не производилось" := by
  refine ⟨("Здравствуйте!\n\nПо вашему заказу № " ++ Option.getD d.orderNumber "______"
      ++ " (посылка от отправителя " ++ Option.getD d.shipper "N/A" ++ ", "
      ++ Option.getD d.shipperCountry "" ++ ") была начислена таможенная пошлина."
      ++ "\n\nДетали:\n- Описание товара: " ++ Option.getD d.goodsDescription "N/A"
      ++ "\n- Объявленная стоимость: $" ++ Option.getD d.declaredValue "N/A"
      ++ "\n- Пошлина (Duty): $" ++ Option.getD d.dutyAmount "N/A"
      ++ "\n- Сбор за оформление (Entry Prep Fee): $" ++ Option.getD d.entryPrepFee "N/A"
      ++ "\n- Итого " ++ "к оплате" ++ ": $" ++ Option.getD d.totalCharges "N/A"
      ++ " USD" ++ "\n\n").data,
    (", так как оплата пошлины не была согласована."
      ++ "\nПожалуйста, подтвердите оплату или свяжитесь с нами для уточнения."
      ++ "\n\nЕсли у вас есть вопросы — напишите нам.").data, ?_⟩
  have h4 : ("\n\nСписание средств не производилось, так как оплата пошлины не была согласована." : String).data
      = ("\n\n" : String).data ++ (("Списание средств не производилось" : String).data
          ++ (", так как оплата пошлины не была согласована." : String).data) := rfl
  simp [generate_ticket, String.data_append, h4, List.append_assoc]

set_option maxRecDepth 8192 in
/-- The rendered ticket of a rejected shipment labels the total line
with the to-pay label. -/
theorem ticket_contains_unpaid_total_label (d : ShipmentData) :
    containsStr (generate_ticket d false) "Итого к оплате" := by
  refine ⟨("Здравствуйте!\n\nПо вашему заказу № " ++ Option.getD d.orderNumber "______"
      ++ " (посылка от отправителя " ++ Option.getD d.shipper "N/A" ++ ", "
      ++ Option.getD d.shipperCountry "" ++ ") была начислена таможенная пошлина."
      ++ "\n\nДетали:\n- Описание товара: " ++ Option.getD d.goodsDescription "N/A"
      ++ "\n- Объявленная стоимость: $" ++ Option.getD d.declaredValue "N/A"
      ++ "\n- Пошлина (Duty): $" ++ Option.getD d.dutyAmount "N/A"
      ++ "\n- Сбор за оформление (Entry Prep Fee): $" ++ Option.getD d.entryPrepFee "N/A"
      ++ "\n- ").data,
    (": $" ++ Option.getD d.totalCharges "N/A" ++ " USD"
      ++ "\n\nСписание средств не производилось, так как оплата пошлины не была согласована."
      ++ "\nПожалуйста, подтвердите оплату или свяжитесь с нами для уточнения."
      ++ "\n\nЕсли у вас есть вопросы — напишите нам.").data, ?_⟩
  have h2 : ("\n- Итого " : String).data = ("\n- " : String).data ++ ("Итого " : String).data := rfl
  have h3 : ("Итого к оплате" : String).data = ("Итого " : String).data ++ ("к оплате" : String).data := rfl
  simp [generate_ticket, String.data_append, h2, h3, List.append_assoc]

/-- A list is a `isPrefixOf`-prefix of itself followed by anything. -/
theorem isPrefixOf_append_self (p r : List Char) :
    List.isPrefixOf p (p ++ r) = true := by
  induction p with
  | nil => simp [List.isPrefixOf]
  | cons c cs ih => simp [List.isPrefixOf, ih]

/-- `pyStripChars` is the identity when neither end starts with
whitespace. -/
theorem pyStripChars_eq_self {s : List Char}
    (h1 : s.dropWhile Char.isWhitespace = s)
    (h2 : s.reverse.dropWhile Char.isWhitespace = s.reverse) :
    pyStripChars s = s := by
  unfold pyStripChars
  rw [h1, h2, List.reverse_reverse]

/-- The fence-stripping chain of `process_invoices` on a response of the
shape the prompt forbids but the engine may still produce: a payload
wrapped in a leading ```json fence and a trailing ``` fence.  Provided
the payload has no surrounding whitespace and does not itself open with
a fence, the chain recovers exactly the payload. -/
theorem fence_strip_fenced (body : String)
    (hpre : List.isPrefixOf (("```").data) (body.data ++ ("```").data) = false)
    (hstrip : pyStripChars body.data = body.data) :
    fence_strip ("```json" ++ body ++ "```") = body := by
  have hw : Char.isWhitespace '`' = false := by decide
  have hdata : ("```json" ++ body ++ "```").data
      = ("```json").data ++ (body.data ++ ("```").data) := by
    rw [String.data_append, String.data_append, List.append_assoc]
  have hcons : ("```json").data ++ (body.data ++ ("```").data)
      = '`' :: (("``json").data ++ (body.data ++ ("```").data)) := by
    rw [show ("```json" : String).data = '`' :: ("``json" : String).data from rfl]
    rfl
  have h1 : List.dropWhile Char.isWhitespace
      (("```json").data ++ (body.data ++ ("```").data))
      = ("```json").data ++ (body.data ++ ("```").data) := by
    rw [hcons]; simp [List.dropWhile_cons, hw]
  have hrev : (("```json").data ++ (body.data ++ ("```").data)).reverse
      = '`' :: (['`', '`'] ++ (body.data.reverse ++ ("```json").data.reverse)) := by
    simp [List.reverse_append]
  have h2 : (("```json").data ++ (body.data ++ ("```").data)).reverse.dropWhile Char.isWhitespace
      = (("```json").data ++ (body.data ++ ("```").data)).reverse := by
    rw [hrev]; simp [List.dropWhile_cons, hw]
  have e0 : pyStripChars (("```json" ++ body ++ "```").data)
      = ("```json").data ++ (body.data ++ ("```").data) := by
    rw [hdata]; exact pyStripChars_eq_self h1 h2
  have e1 : removePreChars (("```json").data)
      (("```json").data ++ (body.data ++ ("```").data)) = body.data ++ ("```").data := by
    unfold removePreChars
    rw [isPrefixOf_append_self]
    simp [List.drop_left]
  have e2 : removePreChars (("```").data) (body.data ++ ("```").data)
      = body.data ++ ("```").data := by
    unfold removePreChars
    rw [hpre]
    simp
  have e3 : removeSufChars (("```").data) (body.data ++ ("```").data) = body.data := by
    unfold removeSufChars
    have hsuf : List.isSuffixOf (("```").data) (body.data ++ ("```").data) = true := by
      unfold List.isSuffixOf
      rw [List.reverse_append]
      exact isPrefixOf_append_self _ _
    rw [hsuf]
    simp [List.length_append]
  show String.mk (pyStripChars (removeSufChars (("```").data)
      (removePreChars (("```").data) (removePreChars (("```json").data)
        (pyStripChars (("```json" ++ body ++ "```").data)))))) = body
  rw [e0, e1, e2, e3, hstrip]

/-! Claim theorems. -/

/-- C1: evaluation of the bounds handling at concrete inputs.  The claim
says every index outside [0, len(shipments)) must leave the session
unchanged; the callback handler only checks `idx < len`, so the reject
callback with index -1 on a one-shipment session passes the guard and
Python negative indexing mutates the last shipment's `paymentApproved`
flag, while `/order` (which does check `0 <= idx`) correctly reports
not-found without mutating. -/
theorem c1_out_of_range_evaluation :
    (handle_callback { images := [], phase := .review, shipments := [sample_full] } .reject (-1)).1.shipments
        = [{ sample_full with paymentApproved := some false }]
    ∧ (handle_callback { images := [], phase := .review, shipments := [sample_full] } .reject (-1)).1
        ≠ { images := [], phase := .review, shipments := [sample_full] }
    ∧ cmd_order true ["0", "X"] { images := [], phase := .review, shipments := [sample_full] }
        = ({ images := [], phase := .review, shipments := [sample_full] }, .notFound 0)
    ∧ (handle_callback { images := [], phase := .review, shipments := [sample_full] } .approve 5)
        = ({ images := [], phase := .review, shipments := [sample_full] }, .silent) := by
  decide

/-- C2: evaluation of the access checks at concrete inputs.  With the
allow-list "5", user 7 is denied, yet `/clear` resets user 7's session
(no membership check in `cmd_clear`) and a reject callback from user 7
flips a shipment's approval flag (no membership check in
`handle_callback`), so session state is mutated by a denied user. -/
theorem c2_access_check_evaluation :
    is_allowed "5" 7 = false
    ∧ (cmd_clear_entry "5" 7 [(7, { images := ["img"], phase := .collecting, shipments := [] })]).1
        ≠ [(7, { images := ["img"], phase := .collecting, shipments := [] })]
    ∧ (handle_callback_entry "5" 7 [(7, { images := [], phase := .review, shipments := [sample_full] })] .reject 0).1
        = [(7, { images := [], phase := .review, shipments := [{ sample_full with paymentApproved := some false }] })] := by
  decide

/-- C3 counterexample: the claim as stated fails twice.  On a session
finalizing from Review, an extraction failure leaves phase = Review (not
Collecting); and when extraction succeeds but returns a non-object
draft, the commit loop dies after `shipments` was already cleared, so
shipments ends up neither unchanged ([sample_full]) nor a full commit —
all-or-nothing is violated. -/
theorem c3_counterexample :
    (cmd_done true .failure { images := ["img"], phase := .review, shipments := [sample_full] }).1.phase ≠ .collecting
    ∧ (cmd_done true (.success [.nonDict]) { images := ["img"], phase := .review, shipments := [sample_full] }).1.shipments = []
    ∧ [sample_full] ≠ ([] : List ShipmentData) := by
  decide

/-- C3 (amended): with non-empty images, (a) if the Extraction Adapter
fails the session is left exactly as it was (phase, images, shipments
unchanged — a finalize from Collecting thus stays in Collecting with its
images intact for retry); (b) if the adapter succeeds and every returned
draft is a JSON object, every draft is committed (augmented) and phase
becomes Review; (c) if some returned draft is not an object, shipments
is left holding exactly the committed prefix before it, with phase and
images unchanged — the prior batch is lost. -/
theorem c3_finalize_atomicity_amended (s : Session) (ds pre : List ShipmentData)
    (post : List Draft) (h : s.images ≠ []) :
    cmd_done true .failure s = (s, .extractError)
    ∧ (cmd_done true (.success (ds.map Draft.obj)) s).1
        = { s with shipments := ds.map commit_draft, phase := .review }
    ∧ (cmd_done true (.success (pre.map Draft.obj ++ Draft.nonDict :: post)) s).1
        = { s with shipments := pre.map commit_draft } := by
  refine ⟨by simp [cmd_done, h], by simp [cmd_done, h, commit_loop_obj], ?_⟩
  simp [cmd_done, h, commit_loop_stops]

/-- C3 witness: the amended theorem applied at a concrete session. -/
theorem c3_finalize_atomicity_witness :
    cmd_done true .failure { images := ["img"], phase := .review, shipments := [sample_full] }
        = ({ images := ["img"], phase := .review, shipments := [sample_full] }, .extractError)
    ∧ (cmd_done true (.success [Draft.obj sample_empty]) { images := ["img"], phase := .review, shipments := [sample_full] }).1
        = { images := ["img"], phase := .review, shipments := [commit_draft sample_empty] }
    ∧ (cmd_done true (.success [Draft.obj sample_empty, Draft.nonDict]) { images := ["img"], phase := .review, shipments := [sample_full] }).1
        = { images := ["img"], phase := .review, shipments := [commit_draft sample_empty] } := by
  exact c3_finalize_atomicity_amended
    { images := ["img"], phase := .review, shipments := [sample_full] }
    [sample_empty] [sample_empty] [] (by decide)

/-- C4 counterexample: the order-number substitution does not fall back
to "N/A" — rendering a record with the key absent differs from
rendering it with the value "N/A" (the actual fallback is "______"). -/
theorem c4_counterexample :
    generate_ticket sample_empty true
      ≠ generate_ticket { sample_empty with orderNumber := some "N/A" } true := by
  decide

/-- C4 (amended): the substitutions for shipper, goods description,
declared value, duty amount, entry-prep fee and total charges fall back
to the literal "N/A" when the field is absent; the order number falls
back to the literal "______" and the shipper country to the empty
string. -/
theorem c4_fallback_defaults (d : ShipmentData) (a : Bool) :
    generate_ticket { d with orderNumber := none } a = generate_ticket { d with orderNumber := some "______" } a
    ∧ generate_ticket { d with shipper := none } a = generate_ticket { d with shipper := some "N/A" } a
    ∧ generate_ticket { d with shipperCountry := none } a = generate_ticket { d with shipperCountry := some "" } a
    ∧ generate_ticket { d with goodsDescription := none } a = generate_ticket { d with goodsDescription := some "N/A" } a
    ∧ generate_ticket { d with declaredValue := none } a = generate_ticket { d with declaredValue := some "N/A" } a
    ∧ generate_ticket { d with dutyAmount := none } a = generate_ticket { d with dutyAmount := some "N/A" } a
    ∧ generate_ticket { d with entryPrepFee := none } a = generate_ticket { d with entryPrepFee := some "N/A" } a
    ∧ generate_ticket { d with totalCharges := none } a = generate_ticket { d with totalCharges := some "N/A" } a :=
  ⟨rfl, rfl, rfl, rfl, rfl, rfl, rfl, rfl⟩

/-- C5: for every shipment record with all fields present, the approved
ticket contains the balance-debited sentence and the total line labeled
"оплачено", and the rejected ticket contains the no-debit sentence and
the total line labeled "к оплате". -/
theorem c5_ticket_round_trip (d : ShipmentData) (h : allFieldsPresent d) :
    (containsStr (generate_ticket d true) "Сумма была списана с вашего баланса."
      ∧ containsStr (generate_ticket d true) "Итого оплачено")
    ∧ containsStr (generate_ticket d false) "Списание средств не производилось"
    ∧ containsStr (generate_ticket d false) "Итого к оплате" :=
  ⟨⟨ticket_contains_paid_footer d, ticket_contains_paid_total_label d⟩,
    ticket_contains_unpaid_footer d, ticket_contains_unpaid_total_label d⟩

/-- C5 witness: the round-trip theorem at a fully populated record. -/
theorem c5_ticket_round_trip_witness :
    (containsStr (generate_ticket sample_full true) "Сумма была списана с вашего баланса."
      ∧ containsStr (generate_ticket sample_full true) "Итого оплачено")
    ∧ containsStr (generate_ticket sample_full false) "Списание средств не производилось"
    ∧ containsStr (generate_ticket sample_full false) "Итого к оплате" :=
  c5_ticket_round_trip sample_full (by decide)

/-- C6: receiving an image while in Review resets the session: the
images become exactly the one-element list holding the new image,
shipments become empty and the phase returns to Collecting. -/
theorem c6_image_in_review_resets (s : Session) (img : String)
    (h : s.phase = .review) :
    (handle_photo true s img).1
      = { images := [img], phase := .collecting, shipments := [] } := by
  simp [handle_photo, h]

/-- C6 witness: the reset theorem at a concrete Review session. -/
theorem c6_image_in_review_resets_witness :
    (handle_photo true { images := ["old1", "old2"], phase := .review, shipments := [sample_full] } "new").1
      = { images := ["new"], phase := .collecting, shipments := [] } :=
  c6_image_in_review_resets
    { images := ["old1", "old2"], phase := .review, shipments := [sample_full] } "new" rfl

/-- C7: a finalize on non-empty images whose extraction returns object
drafts builds shipments as exactly those drafts, each augmented with
orderNumber = "" and paymentApproved = true (`commit_draft`), and moves
the phase to Review; a finalize on empty images leaves the session
untouched and reports the no-images error. -/
theorem c7_finalize_builds_shipments (s t : Session) (ds : List ShipmentData)
    (e : ExtractOutcome) (h : s.images ≠ []) (ht : t.images = []) :
    cmd_done true (.success (ds.map Draft.obj)) s
        = ({ s with shipments := ds.map commit_draft, phase := .review },
          .processed (ds.map commit_draft).length ((ds.map commit_draft).length > 1))
    ∧ cmd_done true e t = (t, .noImages) := by
  constructor
  · simp [cmd_done, h, commit_loop_obj]
  · simp [cmd_done, ht]

/-- C7 witness: the finalize theorem at concrete sessions. -/
theorem c7_finalize_builds_shipments_witness :
    cmd_done true (.success [Draft.obj sample_empty]) { images := ["i"], phase := .collecting, shipments := [] }
        = ({ images := ["i"], phase := .review, shipments := [commit_draft sample_empty] }, .processed 1 false)
    ∧ cmd_done true .failure fresh_session = (fresh_session, .noImages) := by
  exact c7_finalize_builds_shipments
    { images := ["i"], phase := .collecting, shipments := [] }
    fresh_session [sample_empty] .failure (by decide) rfl

/-- C8: the Extraction Adapter strips a leading ```json fence and a
trailing ``` fence (and surrounding whitespace) from the engine's text
before parsing, and a parse result that is a single value rather than an
array is normalized to the one-element draft list. -/
theorem c8_fence_and_normalization (jsonLoads : String → Option ParsedJson)
    (body : String) (d : Draft)
    (hpre : List.isPrefixOf (("```").data) (body.data ++ ("```").data) = false)
    (hstrip : pyStripChars body.data = body.data) :
    fence_strip ("```json" ++ body ++ "```") = body
    ∧ (jsonLoads body = some (.single d) →
        parse_response jsonLoads ("```json" ++ body ++ "```") = some [d]) := by
  have hfs := fence_strip_fenced body hpre hstrip
  exact ⟨hfs, fun hj => by simp [parse_response, hfs, hj, normalize_parsed]⟩

/-- C8 witness: the adapter theorem at a concrete fenced payload and a
parse stub returning a single (non-array) value. -/
theorem c8_fence_and_normalization_witness :
    fence_strip ("```json" ++ "[1]" ++ "```") = "[1]"
    ∧ parse_response (fun _ => some (.single (.obj sample_empty)))
        ("```json" ++ "[1]" ++ "```") = some [.obj sample_empty] :=
  ⟨(c8_fence_and_normalization (fun _ => some (.single (.obj sample_empty)))
      "[1]" (.obj sample_empty) (by decide) (by decide)).1,
    (c8_fence_and_normalization (fun _ => some (.single (.obj sample_empty)))
      "[1]" (.obj sample_empty) (by decide) (by decide)).2 rfl⟩

/-- C9: on a Review session, applying the same approve/reject callback
(SetApproval with the same value) twice at an in-bounds index yields the
same session state as applying it once. -/
theorem c9_set_approval_idempotent (s : Session) (v : Bool) (idx : Nat)
    (hph : s.phase = .review) (h : idx < s.shipments.length) :
    (handle_callback (handle_callback s (if v then .approve else .reject) (idx : Int)).1
        (if v then .approve else .reject) (idx : Int)).1
      = (handle_callback s (if v then .approve else .reject) (idx : Int)).1 := by
  cases v
  · show (handle_callback (handle_callback s .reject (idx : Int)).1 .reject (idx : Int)).1
      = (handle_callback s .reject (idx : Int)).1
    rw [handle_callback_reject_inbounds s idx h]
    have h2 : idx < (list_update s.shipments idx (fun sh => { sh with paymentApproved := some false })).length := by
      simpa [list_update_length] using h
    dsimp only
    rw [handle_callback_reject_inbounds _ idx h2]
    dsimp only
    rw [list_update_idem s.shipments idx (fun sh => { sh with paymentApproved := some false }) (fun a => rfl)]
  · show (handle_callback (handle_callback s .approve (idx : Int)).1 .approve (idx : Int)).1
      = (handle_callback s .approve (idx : Int)).1
    rw [handle_callback_approve_inbounds s idx h]
    have h2 : idx < (list_update s.shipments idx (fun sh => { sh with paymentApproved := some true })).length := by
      simpa [list_update_length] using h
    dsimp only
    rw [handle_callback_approve_inbounds _ idx h2]
    dsimp only
    rw [list_update_idem s.shipments idx (fun sh => { sh with paymentApproved := some true }) (fun a => rfl)]

/-- C9 witness: idempotence at a concrete one-shipment Review session. -/
theorem c9_set_approval_idempotent_witness :
    (handle_callback (handle_callback { images := [], phase := .review, shipments := [sample_full] } .reject ((0 : Nat) : Int)).1
        .reject ((0 : Nat) : Int)).1
      = (handle_callback { images := [], phase := .review, shipments := [sample_full] } .reject ((0 : Nat) : Int)).1 := by
  exact c9_set_approval_idempotent
    { images := [], phase := .review, shipments := [sample_full] } false 0 rfl (by decide)

/-- C10: a successful extraction returning zero drafts still moves the
session to Review with an empty shipments list, and a bulk tickets
request on that state reports the empty-shipments error instead of
rendering anything. -/
theorem c10_empty_review_reachable (s : Session) (h : s.images ≠ []) :
    (cmd_done true (.success []) s).1.phase = .review
    ∧ (cmd_done true (.success []) s).1.shipments = []
    ∧ cmd_tickets true (cmd_done true (.success []) s).1
        = ((cmd_done true (.success []) s).1, .empty) := by
  simp [cmd_done, cmd_tickets, h, commit_loop]

/-- C10 witness: the empty-extraction theorem at a concrete session. -/
theorem c10_empty_review_reachable_witness :
    (cmd_done true (.success []) { images := ["img"], phase := .collecting, shipments := [] }).1.phase = .review
    ∧ (cmd_done true (.success []) { images := ["img"], phase := .collecting, shipments := [] }).1.shipments = []
    ∧ cmd_tickets true (cmd_done true (.success []) { images := ["img"], phase := .collecting, shipments := [] }).1
        = ((cmd_done true (.success []) { images := ["img"], phase := .collecting, shipments := [] }).1, .empty) :=
  c10_empty_review_reachable { images := ["img"], phase := .collecting, shipments := [] } (by decide)
